import Mathlib

/-!
Shallow embedding of the short-film generation pipeline
(src/short_film: models.py, video_gen.py, image_gen.py,
generator.py, state.py, stitcher.py) and proofs of the
spec claims about it.

File paths are modelled as strings, durations as rationals,
and the outside world (filesystem checks, provider network
calls, frame extraction, the concatenation tool) as an
explicit oracle record so that the orchestrator becomes a
pure function on run state.
-/

namespace ShortFilm

/-- models.py FilmStyle enum. -/
inductive FilmStyle where
  | cinematic | noir | anime | documentary | scifi | fantasy | horror | comedy
deriving DecidableEq

/-- models.py MusicVibe enum. -/
inductive MusicVibe where
  | epic | suspenseful | calm | upbeat | dark | whimsical | nonevibe
deriving DecidableEq

/-- models.py VideoProvider enum. -/
inductive VideoProvider where
  | openai | gemini
deriving DecidableEq

/-- models.py ClipStatus enum. -/
inductive ClipStatus where
  | pending | generating | completed | failed
deriving DecidableEq

/-- models.py VideoClip (paths as strings, duration as a rational). -/
structure VideoClip where
  index : Nat
  status : ClipStatus := ClipStatus.pending
  prompt : String
  start_image_path : Option String := Option.none
  output_path : Option String := Option.none
  last_frame_path : Option String := Option.none
  duration : ℚ := 10
  error : Option String := Option.none
deriving DecidableEq

/-- models.py FilmConfig. -/
structure FilmConfig where
  premise : String
  style : FilmStyle
  music_vibe : MusicVibe
  target_duration : ℚ := 60
  clip_duration : ℚ := 10
  provider : VideoProvider := VideoProvider.openai
  openai_api_key : Option String := Option.none
  gemini_api_key : Option String := Option.none
deriving DecidableEq

/-- models.py FilmState. -/
structure FilmState where
  config : FilmConfig
  output_dir : String
  starting_frame_path : Option String := Option.none
  clips : List VideoClip := []
  final_video_path : Option String := Option.none
  completed : Bool := false
deriving DecidableEq

/-- Oracle for the effectful collaborators: filesystem existence checks,
the image-generation network call of image_gen.py, the per-clip video
provider call (generate_video_openai or generate_video_gemini, retries
already folded into the final outcome), the frame extractor of
video_gen.py, and the ffmpeg concatenation of stitcher.py.  Provider and
extractor outcomes are keyed by clip index since the run invokes them at
most once per clip. -/
structure World where
  fileExists : String → Bool
  imageResult : Except String String
  providerResult : Nat → Except String String
  extractResult : Nat → Except String String
  stitchResult : Except String Unit

/-- Python truthiness test for an optional credential string: None and the
empty string both count as missing (the code uses if not key). -/
def missingKey : Option String → Bool
  | Option.none => true
  | Option.some s => s == ""

/-- video_gen.py create_video_prompt: deterministic prompt from premise,
0-based clip index and total clip count. -/
def create_video_prompt (premise : String) (clip_index : Nat) (total_clips : Nat) : String :=
  if clip_index = 0 then
    premise ++ ". Opening scene, establishing shot. Smooth camera movement."
  else if clip_index = total_clips - 1 then
    premise ++ ". Final scene, resolution. Dramatic conclusion."
  else
    premise ++ ". Continuing the story (scene " ++ toString (clip_index + 1) ++ "). Build tension and progression."

/-- generator.py FilmGenerator._create_new_state: ceil(target/clip) clips,
indices 0.., empty prompts, per-clip output path under the output dir. -/
def _create_new_state (cfg : FilmConfig) (output_dir : String) : FilmState :=
  let num_clips : Nat := (⌈cfg.target_duration / cfg.clip_duration⌉).toNat
  { config := cfg
    output_dir := output_dir
    clips := (List.range num_clips).map (fun i =>
      { index := i
        prompt := ""
        duration := cfg.clip_duration
        output_path := Option.some (output_dir ++ "/clip_" ++ toString i ++ ".mp4") }) }

/-- Result of one generate_clip call in video_gen.py: err is the raised
exception message if any, clip is the (possibly partially mutated) clip
object, netCall records whether the provider network call (generate_fn)
was actually invoked. -/
structure GenOutcome where
  err : Option String
  clip : VideoClip
  netCall : Bool
deriving DecidableEq

/-- Body of generate_clip after the credential check: invoke the provider,
store the output path, and for every clip but the last extract the last
frame for chaining.  Any raised error is also recorded on the clip object
(the except branch of generate_clip mutates clip.error before re-raising). -/
def generate_clip_run (w : World) (clip : VideoClip) (total_clips : Nat) : GenOutcome :=
  match w.providerResult clip.index with
  | Except.error e => ⟨Option.some e, { clip with error := Option.some e }, true⟩
  | Except.ok outPath =>
    let clip1 := { clip with output_path := Option.some outPath }
    if clip.index < total_clips - 1 then
      match w.extractResult clip.index with
      | Except.error e => ⟨Option.some e, { clip1 with error := Option.some e }, true⟩
      | Except.ok framePath => ⟨Option.none, { clip1 with last_frame_path := Option.some framePath }, true⟩
    else
      ⟨Option.none, clip1, true⟩

/-- video_gen.py generate_clip: check the credential of the selected
provider first (raising ValueError with no network call when missing),
then run the generation body. -/
def generate_clip (w : World) (clip : VideoClip) (config : FilmConfig) (total_clips : Nat) : GenOutcome :=
  match config.provider with
  | VideoProvider.openai =>
    if missingKey config.openai_api_key then
      ⟨Option.some "OpenAI API key required", clip, false⟩
    else generate_clip_run w clip total_clips
  | VideoProvider.gemini =>
    if missingKey config.gemini_api_key then
      ⟨Option.some "Gemini API key required", clip, false⟩
    else generate_clip_run w clip total_clips

/-- Python truthiness of the skip test in generator.py line 158: status is
completed, output_path is set, and the referenced file exists on disk. -/
def skipTest (w : World) (clip : VideoClip) : Bool :=
  decide (clip.status = ClipStatus.completed) &&
    (match clip.output_path with
     | Option.some p => w.fileExists p
     | Option.none => false)

/-- Outcome of one iteration of the clip loop in
FilmGenerator._generate_clips: idx is the enumerate position, clip the
updated list entry, attempted whether generate_clip was invoked (false
exactly when the skip branch was taken), netCall whether the provider
network call happened. -/
structure StepResult where
  idx : Nat
  clip : VideoClip
  attempted : Bool
  netCall : Bool
deriving DecidableEq

/-- Lines 162-168 of generator.py: assign the prompt from the pure rule
only when the current prompt is empty. -/
def assignPrompt (cfg : FilmConfig) (total : Nat) (clip : VideoClip) : VideoClip :=
  if clip.prompt = "" then
    { clip with prompt := create_video_prompt cfg.premise clip.index total }
  else clip

/-- Lines 170-177 of generator.py: clip 0 is seeded from the starting
frame reference; a later clip is seeded from the last frame of the
already-updated predecessor when that is set, else left as is. -/
def assignSeed (sfp : Option String) (prev : Option VideoClip) (i : Nat)
    (clip : VideoClip) : VideoClip :=
  if i = 0 then { clip with start_image_path := sfp }
  else
    match prev with
    | Option.none => clip
    | Option.some pc =>
      if pc.last_frame_path.isSome then { clip with start_image_path := pc.last_frame_path }
      else clip

/-- Lines 183-191 of generator.py: on a normal return of generate_clip the
clip becomes completed, on a raise it becomes failed with the error
message recorded. -/
def recordOutcome (g : GenOutcome) (i : Nat) : StepResult :=
  match g.err with
  | Option.none => ⟨i, { g.clip with status := ClipStatus.completed }, true, g.netCall⟩
  | Option.some e => ⟨i, { g.clip with status := ClipStatus.failed, error := Option.some e }, true, g.netCall⟩

/-- One iteration of the clip loop of FilmGenerator._generate_clips
(generator.py lines 156-195): skip completed clips whose file exists,
assign the prompt only when empty, seed the clip, mark it generating, call
generate_clip, and record the outcome. -/
def processClip (w : World) (cfg : FilmConfig) (sfp : Option String) (total : Nat)
    (prev : Option VideoClip) (i : Nat) (clip : VideoClip) : StepResult :=
  if skipTest w clip then
    ⟨i, clip, false, false⟩
  else
    recordOutcome
      (generate_clip w
        { assignSeed sfp prev i (assignPrompt cfg total clip) with status := ClipStatus.generating }
        cfg total) i

/-- The clip loop of FilmGenerator._generate_clips as a recursion over the
clip list, carrying the enumerate index and the updated predecessor (the
code reads self.state.clips with i minus 1, which the loop has already
rewritten in place). -/
def runClipLoop (w : World) (cfg : FilmConfig) (sfp : Option String) (total : Nat) :
    Nat → Option VideoClip → List VideoClip → List StepResult
  | _, _, [] => []
  | i, prev, clip :: rest =>
    let r := processClip w cfg sfp total prev i clip
    r :: runClipLoop w cfg sfp total (i + 1) (Option.some r.clip) rest

/-- FilmGenerator._generate_clips: run the loop over the whole clip list
and write the updated clips back into the state. -/
def _generate_clips (w : World) (st : FilmState) : FilmState × List StepResult :=
  let rs := runClipLoop w st.config st.starting_frame_path st.clips.length 0 Option.none st.clips
  ({ st with clips := rs.map StepResult.clip }, rs)

/-- The list built at generator.py lines 209-213: output paths of the
clips with status completed and a set output path, in list order. -/
def completedClipPaths (clips : List VideoClip) : List String :=
  clips.filterMap (fun c =>
    if c.status = ClipStatus.completed then c.output_path else Option.none)

/-- Observable events of a run, used to express claims about which
network-like calls were attempted and in which order. -/
inductive PipelineEvent where
  | imageNetworkCall : PipelineEvent
  | clipSubmission : Nat → PipelineEvent
  | clipNetworkCall : Nat → PipelineEvent
  | stitchCall : PipelineEvent
deriving DecidableEq

/-- Events of the clip stage, derived from the loop results in order. -/
def clipEvents : List StepResult → List PipelineEvent
  | [] => []
  | r :: rs =>
    ((if r.attempted then [PipelineEvent.clipSubmission r.idx] else []) ++
     (if r.netCall then [PipelineEvent.clipNetworkCall r.idx] else [])) ++ clipEvents rs

/-- image_gen.py generate_starting_frame: raise ValueError when the OpenAI
key is missing (regardless of the selected video provider), otherwise make
the DALL-E network call; returns the events it caused and the outcome. -/
def generate_starting_frame (w : World) (cfg : FilmConfig) :
    List PipelineEvent × Except String String :=
  if missingKey cfg.openai_api_key then
    ([], Except.error "OpenAI API key required for image generation")
  else
    ([PipelineEvent.imageNetworkCall], w.imageResult)

/-- FilmGenerator._stitch_clips: collect completed clip paths, raise when
none, otherwise invoke the concatenator on them and return the final
output path under the output dir. -/
def _stitch_clips (w : World) (st : FilmState) : List PipelineEvent × Except String String :=
  let paths := completedClipPaths st.clips
  if paths.isEmpty then
    ([], Except.error "No completed clips to stitch")
  else
    ([PipelineEvent.stitchCall],
     match w.stitchResult with
     | Except.ok _ => Except.ok (st.output_dir ++ "/final_film.mp4")
     | Except.error e => Except.error e)

/-- Clip stage followed by stitch stage of FilmGenerator.generate: run the
clip loop, then stitch; on stitch success set the final video reference
and the completion flag. -/
def generate_rest (w : World) (st : FilmState) (ev0 : List PipelineEvent) :
    FilmState × List PipelineEvent × Except String String :=
  let st2 := (_generate_clips w st).1
  let ev2 := clipEvents (_generate_clips w st).2
  match _stitch_clips w st2 with
  | (ev3, Except.error e) => (st2, ev0 ++ ev2 ++ ev3, Except.error e)
  | (ev3, Except.ok fin) =>
    ({ st2 with final_video_path := Option.some fin, completed := true },
     ev0 ++ ev2 ++ ev3, Except.ok fin)

/-- FilmGenerator.generate: starting frame stage (skipped when the
reference is already set, fatal on failure), then clip stage and stitch
stage.  Returns the final in-memory state, the ordered event trace, and
the overall outcome. -/
def generate (w : World) (st : FilmState) :
    FilmState × List PipelineEvent × Except String String :=
  match st.starting_frame_path with
  | Option.some _ => generate_rest w st []
  | Option.none =>
    match generate_starting_frame w st.config with
    | (ev, Except.error e) => (st, ev, Except.error e)
    | (ev, Except.ok p) => generate_rest w { st with starting_frame_path := Option.some p } ev

/-!
Checkpoint store (state.py).  StateManager.save serializes the state with
pydantic model_dump in json mode (enums become their value strings, paths
become strings, optionals become nullable fields) and writes one JSON
document; StateManager.load reads it back and revalidates it with
FilmState.model_validate.  The document written and read is modelled by
the Doc structures below; the platform file write and read are identity
on the document.
-/

/-- JSON projection of one VideoClip inside the state document. -/
structure ClipDoc where
  index : Nat
  status : String
  prompt : String
  start_image_path : Option String
  output_path : Option String
  last_frame_path : Option String
  duration : ℚ
  error : Option String
deriving DecidableEq

/-- JSON projection of the FilmConfig inside the state document. -/
structure ConfigDoc where
  premise : String
  style : String
  music_vibe : String
  target_duration : ℚ
  clip_duration : ℚ
  provider : String
  openai_api_key : Option String
  gemini_api_key : Option String
deriving DecidableEq

/-- The single JSON document written to state.json. -/
structure StateDoc where
  config : ConfigDoc
  output_dir : String
  starting_frame_path : Option String
  clips : List ClipDoc
  final_video_path : Option String
  completed : Bool
deriving DecidableEq

/-- Serialized value of a FilmStyle (the str enum value). -/
def FilmStyle.toStr : FilmStyle → String
  | FilmStyle.cinematic => "cinematic"
  | FilmStyle.noir => "noir"
  | FilmStyle.anime => "anime"
  | FilmStyle.documentary => "documentary"
  | FilmStyle.scifi => "scifi"
  | FilmStyle.fantasy => "fantasy"
  | FilmStyle.horror => "horror"
  | FilmStyle.comedy => "comedy"

/-- Enum validation of a FilmStyle value string (pydantic rejects unknown
values with a validation error). -/
def FilmStyle.ofStr (s : String) : Except String FilmStyle :=
  if s = "cinematic" then Except.ok FilmStyle.cinematic
  else if s = "noir" then Except.ok FilmStyle.noir
  else if s = "anime" then Except.ok FilmStyle.anime
  else if s = "documentary" then Except.ok FilmStyle.documentary
  else if s = "scifi" then Except.ok FilmStyle.scifi
  else if s = "fantasy" then Except.ok FilmStyle.fantasy
  else if s = "horror" then Except.ok FilmStyle.horror
  else if s = "comedy" then Except.ok FilmStyle.comedy
  else Except.error ("invalid FilmStyle: " ++ s)

/-- Serialized value of a MusicVibe. -/
def MusicVibe.toStr : MusicVibe → String
  | MusicVibe.epic => "epic"
  | MusicVibe.suspenseful => "suspenseful"
  | MusicVibe.calm => "calm"
  | MusicVibe.upbeat => "upbeat"
  | MusicVibe.dark => "dark"
  | MusicVibe.whimsical => "whimsical"
  | MusicVibe.nonevibe => "none"

/-- Enum validation of a MusicVibe value string. -/
def MusicVibe.ofStr (s : String) : Except String MusicVibe :=
  if s = "epic" then Except.ok MusicVibe.epic
  else if s = "suspenseful" then Except.ok MusicVibe.suspenseful
  else if s = "calm" then Except.ok MusicVibe.calm
  else if s = "upbeat" then Except.ok MusicVibe.upbeat
  else if s = "dark" then Except.ok MusicVibe.dark
  else if s = "whimsical" then Except.ok MusicVibe.whimsical
  else if s = "none" then Except.ok MusicVibe.nonevibe
  else Except.error ("invalid MusicVibe: " ++ s)

/-- Serialized value of a VideoProvider. -/
def VideoProvider.toStr : VideoProvider → String
  | VideoProvider.openai => "openai"
  | VideoProvider.gemini => "gemini"

/-- Enum validation of a VideoProvider value string. -/
def VideoProvider.ofStr (s : String) : Except String VideoProvider :=
  if s = "openai" then Except.ok VideoProvider.openai
  else if s = "gemini" then Except.ok VideoProvider.gemini
  else Except.error ("invalid VideoProvider: " ++ s)

/-- Serialized value of a ClipStatus. -/
def ClipStatus.toStr : ClipStatus → String
  | ClipStatus.pending => "pending"
  | ClipStatus.generating => "generating"
  | ClipStatus.completed => "completed"
  | ClipStatus.failed => "failed"

/-- Enum validation of a ClipStatus value string. -/
def ClipStatus.ofStr (s : String) : Except String ClipStatus :=
  if s = "pending" then Except.ok ClipStatus.pending
  else if s = "generating" then Except.ok ClipStatus.generating
  else if s = "completed" then Except.ok ClipStatus.completed
  else if s = "failed" then Except.ok ClipStatus.failed
  else Except.error ("invalid ClipStatus: " ++ s)

/-- model_dump of one VideoClip. -/
def VideoClip.model_dump (c : VideoClip) : ClipDoc :=
  { index := c.index
    status := c.status.toStr
    prompt := c.prompt
    start_image_path := c.start_image_path
    output_path := c.output_path
    last_frame_path := c.last_frame_path
    duration := c.duration
    error := c.error }

/-- model_validate of one VideoClip document. -/
def VideoClip.model_validate (d : ClipDoc) : Except String VideoClip := do
  let st ← ClipStatus.ofStr d.status
  Except.ok
    { index := d.index
      status := st
      prompt := d.prompt
      start_image_path := d.start_image_path
      output_path := d.output_path
      last_frame_path := d.last_frame_path
      duration := d.duration
      error := d.error }

/-- model_dump of the FilmConfig. -/
def FilmConfig.model_dump (cfg : FilmConfig) : ConfigDoc :=
  { premise := cfg.premise
    style := cfg.style.toStr
    music_vibe := cfg.music_vibe.toStr
    target_duration := cfg.target_duration
    clip_duration := cfg.clip_duration
    provider := cfg.provider.toStr
    openai_api_key := cfg.openai_api_key
    gemini_api_key := cfg.gemini_api_key }

/-- model_validate of the FilmConfig document. -/
def FilmConfig.model_validate (d : ConfigDoc) : Except String FilmConfig := do
  let st ← FilmStyle.ofStr d.style
  let mv ← MusicVibe.ofStr d.music_vibe
  let pv ← VideoProvider.ofStr d.provider
  Except.ok
    { premise := d.premise
      style := st
      music_vibe := mv
      target_duration := d.target_duration
      clip_duration := d.clip_duration
      provider := pv
      openai_api_key := d.openai_api_key
      gemini_api_key := d.gemini_api_key }

/-- Element-wise validation of the clip array. -/
def validateClips : List ClipDoc → Except String (List VideoClip)
  | [] => Except.ok []
  | d :: ds => do
    let c ← VideoClip.model_validate d
    let cs ← validateClips ds
    Except.ok (c :: cs)

/-- model_dump of the whole FilmState (the document json.dump writes). -/
def FilmState.model_dump (s : FilmState) : StateDoc :=
  { config := s.config.model_dump
    output_dir := s.output_dir
    starting_frame_path := s.starting_frame_path
    clips := s.clips.map VideoClip.model_dump
    final_video_path := s.final_video_path
    completed := s.completed }

/-- FilmState.model_validate of a loaded document. -/
def FilmState.model_validate (d : StateDoc) : Except String FilmState := do
  let cfg ← FilmConfig.model_validate d.config
  let cs ← validateClips d.clips
  Except.ok
    { config := cfg
      output_dir := d.output_dir
      starting_frame_path := d.starting_frame_path
      clips := cs
      final_video_path := d.final_video_path
      completed := d.completed }

/-- StateManager.save: the document written to state.json. -/
def StateManager.save (state : FilmState) : StateDoc :=
  FilmState.model_dump state

/-- StateManager.load over the optional stored document: absent file gives
none, a present document is revalidated (validation failure is fatal). -/
def StateManager.load : Option StateDoc → Except String (Option FilmState)
  | Option.none => Except.ok Option.none
  | Option.some d => (FilmState.model_validate d).map Option.some

/-- Whether the credential of the selected provider is missing, the
condition tested first inside generate_clip. -/
def selectedKeyMissing (cfg : FilmConfig) : Bool :=
  match cfg.provider with
  | VideoProvider.openai => missingKey cfg.openai_api_key
  | VideoProvider.gemini => missingKey cfg.gemini_api_key

/-- The ValueError message generate_clip raises for a missing credential
of the selected provider. -/
def requiredKeyError (cfg : FilmConfig) : String :=
  match cfg.provider with
  | VideoProvider.openai => "OpenAI API key required"
  | VideoProvider.gemini => "Gemini API key required"

/-- Fallback clip value for list indexing in statements. -/
def defaultClip : VideoClip :=
  { index := 0, prompt := "" }

/-- Fallback step result for list indexing in statements. -/
def defaultStep : StepResult :=
  ⟨0, defaultClip, false, false⟩

/-- Positions of the clips with status completed, in increasing order:
the index set the stitch list draws from. -/
def completedIndices (clips : List VideoClip) : List Nat :=
  (List.range clips.length).filter
    (fun i => decide ((clips.getD i defaultClip).status = ClipStatus.completed))

/-- A sample config: scifi, 30 second target, 10 second clips, OpenAI
provider with a key present. -/
def sampleConfig : FilmConfig :=
  { premise := "P", style := FilmStyle.scifi, music_vibe := MusicVibe.epic,
    target_duration := 30, clip_duration := 10,
    provider := VideoProvider.openai,
    openai_api_key := Option.some "k", gemini_api_key := Option.none }

/-- The fresh 3-clip list that _create_new_state builds for sampleConfig
with output root out. -/
def sampleClips : List VideoClip :=
  [ { index := 0, prompt := "", duration := 10, output_path := Option.some "out/clip_0.mp4" },
    { index := 1, prompt := "", duration := 10, output_path := Option.some "out/clip_1.mp4" },
    { index := 2, prompt := "", duration := 10, output_path := Option.some "out/clip_2.mp4" } ]

/-- A world where nothing exists on disk yet and every collaborator call
succeeds with its deterministic artifact path. -/
def trivialWorld : World :=
  { fileExists := fun _ => false,
    imageResult := Except.ok "out/starting_frame.png",
    providerResult := fun i => Except.ok ("out/clip_" ++ toString i ++ ".mp4"),
    extractResult := fun i => Except.ok ("out/clip_" ++ toString i ++ "_last_frame.png"),
    stitchResult := Except.ok () }

/-- trivialWorld with the provider failing on clip index 1. -/
def failWorld1 : World :=
  { trivialWorld with
    providerResult := fun i =>
      if i = 1 then Except.error "boom" else Except.ok ("out/clip_" ++ toString i ++ ".mp4") }

/-- trivialWorld where every file exists on disk. -/
def allFilesWorld : World :=
  { trivialWorld with fileExists := fun _ => true }

/-- sampleConfig with the gemini provider selected and no gemini key. -/
def geminiNoKeyConfig : FilmConfig :=
  { sampleConfig with provider := VideoProvider.gemini }

/-- A fresh run state for geminiNoKeyConfig. -/
def geminiNoKeyState : FilmState :=
  { config := geminiNoKeyConfig, output_dir := "out", clips := sampleClips }

/-- geminiNoKeyState with the starting frame already produced. -/
def c6State : FilmState :=
  { config := geminiNoKeyConfig, output_dir := "out",
    starting_frame_path := Option.some "out/starting_frame.png", clips := sampleClips }

/-- A config selecting gemini with a gemini key present but no OpenAI key. -/
def c10Config : FilmConfig :=
  { premise := "P", style := FilmStyle.scifi, music_vibe := MusicVibe.epic,
    target_duration := 30, clip_duration := 10,
    provider := VideoProvider.gemini,
    openai_api_key := Option.none, gemini_api_key := Option.some "g" }

/-- A fresh run state for c10Config. -/
def c10State : FilmState :=
  { config := c10Config, output_dir := "out", clips := sampleClips }

/-- A single checkpointed clip with status completed and a recorded output
file, as a resumed run would load it. -/
def resumedClips : List VideoClip :=
  [ { index := 0, status := ClipStatus.completed, prompt := "q",
      output_path := Option.some "out/clip_0.mp4", duration := 10 } ]

/-- A single clip whose prompt was already assigned on a previous run. -/
def promptedClips : List VideoClip :=
  [ { index := 0, prompt := "old prompt", duration := 10,
      output_path := Option.some "out/clip_0.mp4" } ]

/-- The clip loop results of the concrete 3-clip run where the provider
fails on clip index 1. -/
def c2Run : List StepResult :=
  runClipLoop failWorld1 sampleConfig (Option.some "out/starting_frame.png")
    sampleClips.length 0 Option.none sampleClips

/-! Helper lemmas. -/

theorem clipStatus_ofStr_toStr (s : ClipStatus) : ClipStatus.ofStr s.toStr = Except.ok s := by
  cases s <;> rfl

theorem filmStyle_ofStr_toStr (s : FilmStyle) : FilmStyle.ofStr s.toStr = Except.ok s := by
  cases s <;> rfl

theorem musicVibe_ofStr_toStr (s : MusicVibe) : MusicVibe.ofStr s.toStr = Except.ok s := by
  cases s <;> rfl

theorem videoProvider_ofStr_toStr (s : VideoProvider) : VideoProvider.ofStr s.toStr = Except.ok s := by
  cases s <;> rfl

theorem videoClip_validate_dump (c : VideoClip) :
    VideoClip.model_validate c.model_dump = Except.ok c := by
  obtain ⟨i, st, p, sip, op, lfp, d, e⟩ := c
  cases st <;> rfl

theorem filmConfig_validate_dump (cfg : FilmConfig) :
    FilmConfig.model_validate cfg.model_dump = Except.ok cfg := by
  obtain ⟨p, st, mv, td, cd, pv, ok, gk⟩ := cfg
  cases st <;> cases mv <;> cases pv <;> rfl

theorem validateClips_dump (l : List VideoClip) :
    validateClips (l.map VideoClip.model_dump) = Except.ok l := by
  induction l with
  | nil => rfl
  | cons c cs ih =>
    simp only [List.map_cons, validateClips, videoClip_validate_dump, ih]
    rfl

theorem runClipLoop_length (w : World) (cfg : FilmConfig) (sfp : Option String) (total : Nat)
    (clips : List VideoClip) : ∀ (i0 : Nat) (prev : Option VideoClip),
    (runClipLoop w cfg sfp total i0 prev clips).length = clips.length := by
  induction clips with
  | nil => intro i0 prev; rfl
  | cons c cs ih => intro i0 prev; simp [runClipLoop, ih]

theorem generate_clip_run_index (w : World) (c : VideoClip) (t : Nat) :
    (generate_clip_run w c t).clip.index = c.index := by
  unfold generate_clip_run
  cases w.providerResult c.index with
  | error e => rfl
  | ok p =>
    by_cases h : c.index < t - 1
    · simp only [if_pos h]
      cases w.extractResult c.index <;> rfl
    · simp only [if_neg h]

theorem generate_clip_run_prompt (w : World) (c : VideoClip) (t : Nat) :
    (generate_clip_run w c t).clip.prompt = c.prompt := by
  unfold generate_clip_run
  cases w.providerResult c.index with
  | error e => rfl
  | ok p =>
    by_cases h : c.index < t - 1
    · simp only [if_pos h]
      cases w.extractResult c.index <;> rfl
    · simp only [if_neg h]

theorem generate_clip_run_start (w : World) (c : VideoClip) (t : Nat) :
    (generate_clip_run w c t).clip.start_image_path = c.start_image_path := by
  unfold generate_clip_run
  cases w.providerResult c.index with
  | error e => rfl
  | ok p =>
    by_cases h : c.index < t - 1
    · simp only [if_pos h]
      cases w.extractResult c.index <;> rfl
    · simp only [if_neg h]

theorem generate_clip_of_key_missing (w : World) (c : VideoClip) (cfg : FilmConfig) (t : Nat)
    (h : selectedKeyMissing cfg = true) :
    generate_clip w c cfg t = ⟨Option.some (requiredKeyError cfg), c, false⟩ := by
  obtain ⟨p, st, mv, td, cd, pv, okey, gkey⟩ := cfg
  unfold selectedKeyMissing at h
  unfold generate_clip requiredKeyError
  cases pv <;> simp_all

theorem generate_clip_of_key_present (w : World) (c : VideoClip) (cfg : FilmConfig) (t : Nat)
    (h : selectedKeyMissing cfg = false) :
    generate_clip w c cfg t = generate_clip_run w c t := by
  obtain ⟨p, st, mv, td, cd, pv, okey, gkey⟩ := cfg
  unfold selectedKeyMissing at h
  unfold generate_clip
  cases pv <;> simp_all

theorem generate_clip_index (w : World) (c : VideoClip) (cfg : FilmConfig) (t : Nat) :
    (generate_clip w c cfg t).clip.index = c.index := by
  by_cases h : selectedKeyMissing cfg = true
  · rw [generate_clip_of_key_missing w c cfg t h]
  · rw [generate_clip_of_key_present w c cfg t (eq_false_of_ne_true h)]
    exact generate_clip_run_index w c t

theorem generate_clip_prompt (w : World) (c : VideoClip) (cfg : FilmConfig) (t : Nat) :
    (generate_clip w c cfg t).clip.prompt = c.prompt := by
  by_cases h : selectedKeyMissing cfg = true
  · rw [generate_clip_of_key_missing w c cfg t h]
  · rw [generate_clip_of_key_present w c cfg t (eq_false_of_ne_true h)]
    exact generate_clip_run_prompt w c t

theorem generate_clip_start (w : World) (c : VideoClip) (cfg : FilmConfig) (t : Nat) :
    (generate_clip w c cfg t).clip.start_image_path = c.start_image_path := by
  by_cases h : selectedKeyMissing cfg = true
  · rw [generate_clip_of_key_missing w c cfg t h]
  · rw [generate_clip_of_key_present w c cfg t (eq_false_of_ne_true h)]
    exact generate_clip_run_start w c t

theorem recordOutcome_ok (g : GenOutcome) (i : Nat) (h : g.err = Option.none) :
    recordOutcome g i = ⟨i, { g.clip with status := ClipStatus.completed }, true, g.netCall⟩ := by
  unfold recordOutcome
  rw [h]

theorem recordOutcome_some (g : GenOutcome) (i : Nat) (e : String) (h : g.err = Option.some e) :
    recordOutcome g i
      = ⟨i, { g.clip with status := ClipStatus.failed, error := Option.some e }, true, g.netCall⟩ := by
  unfold recordOutcome
  rw [h]

theorem recordOutcome_attempted (g : GenOutcome) (i : Nat) :
    (recordOutcome g i).attempted = true := by
  unfold recordOutcome
  split <;> rfl

theorem recordOutcome_idx (g : GenOutcome) (i : Nat) : (recordOutcome g i).idx = i := by
  unfold recordOutcome
  split <;> rfl

theorem recordOutcome_start (g : GenOutcome) (i : Nat) :
    (recordOutcome g i).clip.start_image_path = g.clip.start_image_path := by
  unfold recordOutcome
  split <;> rfl

theorem recordOutcome_prompt (g : GenOutcome) (i : Nat) :
    (recordOutcome g i).clip.prompt = g.clip.prompt := by
  unfold recordOutcome
  split <;> rfl

theorem recordOutcome_failed_error (g : GenOutcome) (i : Nat)
    (h : (recordOutcome g i).clip.status = ClipStatus.failed) :
    (recordOutcome g i).clip.error.isSome = true := by
  revert h
  unfold recordOutcome
  split
  · intro h
    exact absurd h (by simp)
  · intro _
    rfl

theorem assignPrompt_index (cfg : FilmConfig) (t : Nat) (c : VideoClip) :
    (assignPrompt cfg t c).index = c.index := by
  unfold assignPrompt
  split <;> rfl

theorem assignPrompt_status (cfg : FilmConfig) (t : Nat) (c : VideoClip) :
    (assignPrompt cfg t c).status = c.status := by
  unfold assignPrompt
  split <;> rfl

theorem assignPrompt_start (cfg : FilmConfig) (t : Nat) (c : VideoClip) :
    (assignPrompt cfg t c).start_image_path = c.start_image_path := by
  unfold assignPrompt
  split <;> rfl

theorem assignPrompt_of_ne (cfg : FilmConfig) (t : Nat) (c : VideoClip) (h : c.prompt ≠ "") :
    assignPrompt cfg t c = c := by
  unfold assignPrompt
  rw [if_neg h]

theorem assignSeed_zero (sfp : Option String) (prev : Option VideoClip) (c : VideoClip) :
    assignSeed sfp prev 0 c = { c with start_image_path := sfp } := rfl

theorem assignSeed_pos_some (sfp : Option String) (pc : VideoClip) (i : Nat) (c : VideoClip)
    (h : i ≠ 0) (f : String) (hl : pc.last_frame_path = Option.some f) :
    assignSeed sfp (Option.some pc) i c = { c with start_image_path := Option.some f } := by
  unfold assignSeed
  rw [if_neg h]
  simp [hl]

theorem assignSeed_pos_none (sfp : Option String) (pc : VideoClip) (i : Nat) (c : VideoClip)
    (h : i ≠ 0) (hl : pc.last_frame_path = Option.none) :
    assignSeed sfp (Option.some pc) i c = c := by
  unfold assignSeed
  rw [if_neg h]
  simp [hl]

theorem assignSeed_index (sfp : Option String) (prev : Option VideoClip) (i : Nat) (c : VideoClip) :
    (assignSeed sfp prev i c).index = c.index := by
  unfold assignSeed
  by_cases h : i = 0
  · rw [if_pos h]
  · rw [if_neg h]
    cases prev with
    | none => rfl
    | some pc =>
      dsimp only
      by_cases hl : pc.last_frame_path.isSome = true
      · rw [if_pos hl]
      · rw [if_neg hl]

theorem assignSeed_prompt (sfp : Option String) (prev : Option VideoClip) (i : Nat) (c : VideoClip) :
    (assignSeed sfp prev i c).prompt = c.prompt := by
  unfold assignSeed
  by_cases h : i = 0
  · rw [if_pos h]
  · rw [if_neg h]
    cases prev with
    | none => rfl
    | some pc =>
      dsimp only
      by_cases hl : pc.last_frame_path.isSome = true
      · rw [if_pos hl]
      · rw [if_neg hl]

theorem skipTest_false_of_status (w : World) (c : VideoClip)
    (h : c.status ≠ ClipStatus.completed) : skipTest w c = false := by
  unfold skipTest
  rw [decide_eq_false h, Bool.false_and]

theorem skipTest_true_of (w : World) (c : VideoClip) (p : String)
    (hst : c.status = ClipStatus.completed) (hop : c.output_path = Option.some p)
    (hex : w.fileExists p = true) : skipTest w c = true := by
  simp [skipTest, hst, hop, hex]

theorem skipTest_false_of_missing_file (w : World) (c : VideoClip) (p : String)
    (hop : c.output_path = Option.some p) (hex : w.fileExists p = false) :
    skipTest w c = false := by
  simp [skipTest, hop, hex]

theorem processClip_skip (w : World) (cfg : FilmConfig) (sfp : Option String) (total : Nat)
    (prev : Option VideoClip) (i : Nat) (clip : VideoClip) (h : skipTest w clip = true) :
    processClip w cfg sfp total prev i clip = ⟨i, clip, false, false⟩ := by
  unfold processClip
  rw [h]
  rfl

theorem processClip_not_skip (w : World) (cfg : FilmConfig) (sfp : Option String) (total : Nat)
    (prev : Option VideoClip) (i : Nat) (clip : VideoClip) (h : skipTest w clip = false) :
    processClip w cfg sfp total prev i clip =
      recordOutcome
        (generate_clip w
          { assignSeed sfp prev i (assignPrompt cfg total clip) with status := ClipStatus.generating }
          cfg total) i := by
  unfold processClip
  rw [h]
  rfl

theorem processClip_attempted (w : World) (cfg : FilmConfig) (sfp : Option String) (total : Nat)
    (prev : Option VideoClip) (i : Nat) (clip : VideoClip) (h : skipTest w clip = false) :
    (processClip w cfg sfp total prev i clip).attempted = true := by
  rw [processClip_not_skip w cfg sfp total prev i clip h]
  exact recordOutcome_attempted _ _

theorem processClip_idx (w : World) (cfg : FilmConfig) (sfp : Option String) (total : Nat)
    (prev : Option VideoClip) (i : Nat) (clip : VideoClip) :
    (processClip w cfg sfp total prev i clip).idx = i := by
  by_cases h : skipTest w clip = true
  · rw [processClip_skip w cfg sfp total prev i clip h]
  · rw [processClip_not_skip w cfg sfp total prev i clip (eq_false_of_ne_true h)]
    exact recordOutcome_idx _ _

theorem processClip_prompt_frozen (w : World) (cfg : FilmConfig) (sfp : Option String)
    (total : Nat) (prev : Option VideoClip) (i : Nat) (clip : VideoClip)
    (h : clip.prompt ≠ "") :
    (processClip w cfg sfp total prev i clip).clip.prompt = clip.prompt := by
  by_cases hs : skipTest w clip = true
  · rw [processClip_skip w cfg sfp total prev i clip hs]
  · rw [processClip_not_skip w cfg sfp total prev i clip (eq_false_of_ne_true hs)]
    rw [recordOutcome_prompt, generate_clip_prompt]
    show (assignSeed sfp prev i (assignPrompt cfg total clip)).prompt = clip.prompt
    rw [assignSeed_prompt, assignPrompt_of_ne cfg total clip h]

theorem processClip_seed_zero (w : World) (cfg : FilmConfig) (sfp : Option String) (total : Nat)
    (prev : Option VideoClip) (clip : VideoClip) (h : skipTest w clip = false) :
    (processClip w cfg sfp total prev 0 clip).clip.start_image_path = sfp := by
  rw [processClip_not_skip w cfg sfp total prev 0 clip h]
  rw [recordOutcome_start, generate_clip_start]
  show (assignSeed sfp prev 0 (assignPrompt cfg total clip)).start_image_path = sfp
  rw [assignSeed_zero]

theorem processClip_seed_chain (w : World) (cfg : FilmConfig) (sfp : Option String) (total : Nat)
    (pc : VideoClip) (i : Nat) (clip : VideoClip) (h : skipTest w clip = false) (hi : i ≠ 0)
    (h0 : clip.start_image_path = Option.none) :
    (processClip w cfg sfp total (Option.some pc) i clip).clip.start_image_path
      = pc.last_frame_path := by
  rw [processClip_not_skip w cfg sfp total (Option.some pc) i clip h]
  rw [recordOutcome_start, generate_clip_start]
  show (assignSeed sfp (Option.some pc) i (assignPrompt cfg total clip)).start_image_path
      = pc.last_frame_path
  cases hl : pc.last_frame_path with
  | none =>
    rw [assignSeed_pos_none sfp pc i _ hi hl, assignPrompt_start]
    exact h0
  | some f =>
    rw [assignSeed_pos_some sfp pc i _ hi f hl]

theorem getD_mem {α : Type} (l : List α) (n : Nat) (d : α) (h : n < l.length) :
    l.getD n d ∈ l := by
  rw [List.getD_eq_getElem l d h]
  exact List.getElem_mem h

theorem processClip_key_missing (w : World) (cfg : FilmConfig) (sfp : Option String)
    (total : Nat) (prev : Option VideoClip) (i : Nat) (clip : VideoClip)
    (h : skipTest w clip = false) (hkey : selectedKeyMissing cfg = true) :
    (processClip w cfg sfp total prev i clip).netCall = false
    ∧ (processClip w cfg sfp total prev i clip).clip.status = ClipStatus.failed
    ∧ (processClip w cfg sfp total prev i clip).clip.error
        = Option.some (requiredKeyError cfg) := by
  rw [processClip_not_skip w cfg sfp total prev i clip h,
    generate_clip_of_key_missing w _ cfg total hkey,
    recordOutcome_some _ i (requiredKeyError cfg) rfl]
  exact ⟨rfl, rfl, rfl⟩

theorem processClip_provider_error (w : World) (cfg : FilmConfig) (sfp : Option String)
    (total : Nat) (prev : Option VideoClip) (i : Nat) (clip : VideoClip) (e : String)
    (h : skipTest w clip = false) (hkey : selectedKeyMissing cfg = false)
    (hprov : w.providerResult clip.index = Except.error e) :
    (processClip w cfg sfp total prev i clip).clip.status = ClipStatus.failed
    ∧ (processClip w cfg sfp total prev i clip).clip.error = Option.some e := by
  have hidx : ({ assignSeed sfp prev i (assignPrompt cfg total clip) with
      status := ClipStatus.generating } : VideoClip).index = clip.index := by
    show (assignSeed sfp prev i (assignPrompt cfg total clip)).index = clip.index
    rw [assignSeed_index, assignPrompt_index]
  have hprov3 : w.providerResult ({ assignSeed sfp prev i (assignPrompt cfg total clip) with
      status := ClipStatus.generating } : VideoClip).index = Except.error e := by
    rw [hidx]
    exact hprov
  rw [processClip_not_skip w cfg sfp total prev i clip h,
    generate_clip_of_key_present w _ cfg total hkey]
  have hgen : generate_clip_run w
      { assignSeed sfp prev i (assignPrompt cfg total clip) with
        status := ClipStatus.generating } total
      = ⟨Option.some e,
         { assignSeed sfp prev i (assignPrompt cfg total clip) with
           status := ClipStatus.generating, error := Option.some e }, true⟩ := by
    unfold generate_clip_run
    rw [hprov3]
  rw [hgen, recordOutcome_some _ i e rfl]
  exact ⟨rfl, rfl⟩

theorem runClipLoop_all_attempted (w : World) (cfg : FilmConfig) (sfp : Option String)
    (total : Nat) (clips : List VideoClip) :
    ∀ (i0 : Nat) (prev : Option VideoClip),
    (∀ c ∈ clips, c.status ≠ ClipStatus.completed) →
    ∀ r ∈ runClipLoop w cfg sfp total i0 prev clips, r.attempted = true := by
  induction clips with
  | nil =>
    intro i0 prev _ r hr
    simp [runClipLoop] at hr
  | cons c cs ih =>
    intro i0 prev hf r hr
    simp only [runClipLoop, List.mem_cons] at hr
    rcases hr with hr | hr
    · subst hr
      exact processClip_attempted w cfg sfp total prev i0 c
        (skipTest_false_of_status w c (hf c (List.mem_cons_self c cs)))
    · exact ih (i0 + 1) _ (fun x hx => hf x (List.mem_cons_of_mem c hx)) r hr

theorem runClipLoop_failed_error (w : World) (cfg : FilmConfig) (sfp : Option String)
    (total : Nat) (clips : List VideoClip) :
    ∀ (i0 : Nat) (prev : Option VideoClip),
    (∀ c ∈ clips, c.status ≠ ClipStatus.completed) →
    ∀ r ∈ runClipLoop w cfg sfp total i0 prev clips,
      r.clip.status = ClipStatus.failed → r.clip.error.isSome = true := by
  induction clips with
  | nil =>
    intro i0 prev _ r hr
    simp [runClipLoop] at hr
  | cons c cs ih =>
    intro i0 prev hf r hr
    simp only [runClipLoop, List.mem_cons] at hr
    rcases hr with hr | hr
    · subst hr
      intro hfail
      have hs := skipTest_false_of_status w c (hf c (List.mem_cons_self c cs))
      rw [processClip_not_skip w cfg sfp total prev i0 c hs] at hfail ⊢
      exact recordOutcome_failed_error _ _ hfail
    · exact ih (i0 + 1) _ (fun x hx => hf x (List.mem_cons_of_mem c hx)) r hr

theorem runClipLoop_prompt_frozen (w : World) (cfg : FilmConfig) (sfp : Option String)
    (total : Nat) (clips : List VideoClip) :
    ∀ (i0 : Nat) (prev : Option VideoClip) (j : Nat),
    j < clips.length → (clips.getD j defaultClip).prompt ≠ "" →
    ((runClipLoop w cfg sfp total i0 prev clips).getD j defaultStep).clip.prompt
      = (clips.getD j defaultClip).prompt := by
  induction clips with
  | nil =>
    intro i0 prev j hj
    exact absurd hj (by simp)
  | cons c cs ih =>
    intro i0 prev j hj hp
    cases j with
    | zero =>
      simp only [runClipLoop, List.getD_cons_zero] at *
      exact processClip_prompt_frozen w cfg sfp total prev i0 c hp
    | succ j =>
      simp only [runClipLoop, List.getD_cons_succ] at *
      exact ih (i0 + 1) _ j (Nat.lt_of_succ_lt_succ hj) hp

theorem runClipLoop_skip_facts (w : World) (cfg : FilmConfig) (sfp : Option String)
    (total : Nat) (clips : List VideoClip) :
    ∀ (i0 : Nat) (prev : Option VideoClip) (j : Nat),
    j < clips.length →
    (clips.getD j defaultClip).status = ClipStatus.completed →
    ∀ p, (clips.getD j defaultClip).output_path = Option.some p →
    (w.fileExists p = true →
      ((runClipLoop w cfg sfp total i0 prev clips).getD j defaultStep).attempted = false
      ∧ ((runClipLoop w cfg sfp total i0 prev clips).getD j defaultStep).clip
          = clips.getD j defaultClip)
    ∧ (w.fileExists p = false →
      ((runClipLoop w cfg sfp total i0 prev clips).getD j defaultStep).attempted = true) := by
  induction clips with
  | nil =>
    intro i0 prev j hj
    exact absurd hj (by simp)
  | cons c cs ih =>
    intro i0 prev j hj hst p hop
    cases j with
    | zero =>
      simp only [runClipLoop, List.getD_cons_zero] at *
      constructor
      · intro hex
        rw [processClip_skip w cfg sfp total prev i0 c (skipTest_true_of w c p hst hop hex)]
        exact ⟨rfl, rfl⟩
      · intro hex
        exact processClip_attempted w cfg sfp total prev i0 c
          (skipTest_false_of_missing_file w c p hop hex)
    | succ j =>
      simp only [runClipLoop, List.getD_cons_succ] at *
      exact ih (i0 + 1) _ j (Nat.lt_of_succ_lt_succ hj) hst p hop

theorem runClipLoop_failed_at (w : World) (cfg : FilmConfig) (sfp : Option String)
    (total : Nat) (clips : List VideoClip) :
    ∀ (i0 : Nat) (prev : Option VideoClip) (k : Nat),
    k < clips.length →
    (∀ c ∈ clips, c.status ≠ ClipStatus.completed) →
    selectedKeyMissing cfg = false →
    ∀ e, w.providerResult ((clips.getD k defaultClip).index) = Except.error e →
    ((runClipLoop w cfg sfp total i0 prev clips).getD k defaultStep).clip.status
        = ClipStatus.failed
    ∧ ((runClipLoop w cfg sfp total i0 prev clips).getD k defaultStep).clip.error
        = Option.some e := by
  induction clips with
  | nil =>
    intro i0 prev k hk
    exact absurd hk (by simp)
  | cons c cs ih =>
    intro i0 prev k hk hf hkey e hprov
    cases k with
    | zero =>
      simp only [runClipLoop, List.getD_cons_zero] at *
      exact processClip_provider_error w cfg sfp total prev i0 c e
        (skipTest_false_of_status w c (hf c (List.mem_cons_self c cs))) hkey hprov
    | succ k =>
      simp only [runClipLoop, List.getD_cons_succ] at *
      exact ih (i0 + 1) _ k (Nat.lt_of_succ_lt_succ hk)
        (fun x hx => hf x (List.mem_cons_of_mem c hx)) hkey e hprov

theorem runClipLoop_key_missing (w : World) (cfg : FilmConfig) (sfp : Option String)
    (total : Nat) (clips : List VideoClip) (hkey : selectedKeyMissing cfg = true) :
    ∀ (i0 : Nat) (prev : Option VideoClip),
    (∀ c ∈ clips, c.status ≠ ClipStatus.completed) →
    ∀ r ∈ runClipLoop w cfg sfp total i0 prev clips,
      r.netCall = false ∧ r.clip.status = ClipStatus.failed
        ∧ r.clip.error = Option.some (requiredKeyError cfg) := by
  induction clips with
  | nil =>
    intro i0 prev _ r hr
    simp [runClipLoop] at hr
  | cons c cs ih =>
    intro i0 prev hf r hr
    simp only [runClipLoop, List.mem_cons] at hr
    rcases hr with hr | hr
    · subst hr
      exact processClip_key_missing w cfg sfp total prev i0 c
        (skipTest_false_of_status w c (hf c (List.mem_cons_self c cs))) hkey
    · exact ih (i0 + 1) _ (fun x hx => hf x (List.mem_cons_of_mem c hx)) r hr

theorem runClipLoop_seed_head (w : World) (cfg : FilmConfig) (sfp : Option String)
    (total : Nat) (c : VideoClip) (cs : List VideoClip) (prev : Option VideoClip)
    (h0 : c.status ≠ ClipStatus.completed) :
    ((runClipLoop w cfg sfp total 0 prev (c :: cs)).getD 0 defaultStep).clip.start_image_path
      = sfp := by
  simp only [runClipLoop, List.getD_cons_zero]
  exact processClip_seed_zero w cfg sfp total prev c (skipTest_false_of_status w c h0)

theorem runClipLoop_seed_chain (w : World) (cfg : FilmConfig) (sfp : Option String)
    (total : Nat) (clips : List VideoClip) :
    ∀ (i0 : Nat) (prev : Option VideoClip) (j : Nat),
    j + 1 < clips.length →
    (∀ c ∈ clips, c.status ≠ ClipStatus.completed ∧ c.start_image_path = Option.none) →
    ((runClipLoop w cfg sfp total i0 prev clips).getD (j + 1) defaultStep).clip.start_image_path
      = ((runClipLoop w cfg sfp total i0 prev clips).getD j defaultStep).clip.last_frame_path := by
  induction clips with
  | nil =>
    intro i0 prev j hj
    exact absurd hj (by simp)
  | cons c cs ih =>
    intro i0 prev j hj hf
    cases j with
    | zero =>
      cases cs with
      | nil => exact absurd hj (by simp)
      | cons c2 cs2 =>
        simp only [runClipLoop, List.getD_cons_zero, List.getD_cons_succ]
        have hf2 := hf c2 (List.mem_cons_of_mem c (List.mem_cons_self c2 cs2))
        exact processClip_seed_chain w cfg sfp total _ (i0 + 1) c2
          (skipTest_false_of_status w c2 hf2.1) (Nat.succ_ne_zero i0) hf2.2
    | succ j =>
      simp only [runClipLoop, List.getD_cons_succ]
      exact ih (i0 + 1) _ j (Nat.lt_of_succ_lt_succ hj)
        (fun x hx => hf x (List.mem_cons_of_mem c hx))

theorem completedClipPaths_nil_of (clips : List VideoClip)
    (h : ∀ c ∈ clips, c.status ≠ ClipStatus.completed) :
    completedClipPaths clips = [] := by
  induction clips with
  | nil => rfl
  | cons c cs ih =>
    have hc := h c (List.mem_cons_self c cs)
    simp only [completedClipPaths, List.filterMap_cons, if_neg hc]
    exact ih (fun x hx => h x (List.mem_cons_of_mem c hx))

theorem completedIndices_sorted (clips : List VideoClip) :
    List.Pairwise (· < ·) (completedIndices clips) :=
  (List.pairwise_lt_range _).filter _

theorem not_mem_completedIndices (clips : List VideoClip) (k : Nat)
    (h : (clips.getD k defaultClip).status = ClipStatus.failed) :
    k ∉ completedIndices clips := by
  intro hk
  have h2 := (List.mem_filter.mp hk).2
  rw [decide_eq_true_eq] at h2
  rw [h] at h2
  exact absurd h2 (by decide)

theorem list_eq_range_getD {α : Type} (l : List α) (d : α) :
    l = (List.range l.length).map (fun i => l.getD i d) := by
  induction l with
  | nil => rfl
  | cons a t ih =>
    simp only [List.length_cons, List.range_succ_eq_map, List.map_cons, List.getD_cons_zero,
      List.map_map]
    congr 1

theorem filterMap_ite {α β : Type} (P : α → Prop) [DecidablePred P] (φ : α → Option β)
    (l : List α) :
    l.filterMap (fun a => if P a then φ a else Option.none)
      = (l.filter (fun a => decide (P a))).filterMap φ := by
  induction l with
  | nil => rfl
  | cons a t ih =>
    by_cases h : P a
    · simp [List.filterMap_cons, List.filter_cons, h, ih]
    · simp [List.filterMap_cons, List.filter_cons, h, ih]

theorem completedClipPaths_eq_indices (clips : List VideoClip) :
    completedClipPaths clips
      = (completedIndices clips).filterMap
          (fun i => (clips.getD i defaultClip).output_path) := by
  have h1 := filterMap_ite (fun c : VideoClip => c.status = ClipStatus.completed)
    (fun c : VideoClip => c.output_path) clips
  unfold completedClipPaths
  rw [h1]
  conv_lhs => rw [list_eq_range_getD clips defaultClip]
  rw [List.filter_map, List.filterMap_map]
  rfl

/-! Claim theorems. -/

/-- C5: saving a RunState through the Checkpoint Store and loading it back
returns an equivalent RunState: the same config, output root, clip
statuses, prompts and paths, starting-frame and final-video references,
and completion flag (here, the very same FilmState value). -/
theorem claim_C5_save_load_roundtrip (s : FilmState) :
    StateManager.load (Option.some (StateManager.save s)) = Except.ok (Option.some s) := by
  obtain ⟨cfg, od, sfp, clips, fvp, cpl⟩ := s
  simp only [StateManager.load, StateManager.save, FilmState.model_dump,
    FilmState.model_validate, filmConfig_validate_dump, validateClips_dump]
  rfl

/-- C7: a fresh RunState for a config with positive target and clip
durations has exactly ceil(target/clip) clips, the clip index fields are
exactly 0..count-1 in order with no gaps, and the clip loop never resizes
the list. -/
theorem claim_C7_clip_count (cfg : FilmConfig) (output_dir : String)
    (ht : 0 < cfg.target_duration) (hc : 0 < cfg.clip_duration) :
    (_create_new_state cfg output_dir).clips.length
        = (⌈cfg.target_duration / cfg.clip_duration⌉).toNat
    ∧ ((_create_new_state cfg output_dir).clips.map (fun c => c.index))
        = List.range (_create_new_state cfg output_dir).clips.length
    ∧ ∀ w : World,
        ((_generate_clips w (_create_new_state cfg output_dir)).1).clips.length
          = (_create_new_state cfg output_dir).clips.length := by
  refine ⟨?_, ?_, ?_⟩
  · simp [_create_new_state]
  · simp only [_create_new_state, List.map_map, Function.comp_def, List.length_map,
      List.length_range]
    exact List.map_id _
  · intro w
    simp [_generate_clips, runClipLoop_length]

/-- C8: the prompt rule is a pure function of premise, index and total:
index 0 gives the opening and establishing framing, a last index other
than 0 gives the final and resolution framing, any other index gives the
continuation framing citing the 1-based scene number; with 3 clips, clip 0
contains an opening marker, clip 2 a final marker, and clip 1 cites
scene 2. -/
theorem claim_C8_prompt_rule (p : String) (n i : Nat) :
    create_video_prompt p 0 n
        = p ++ ". Opening scene, establishing shot. Smooth camera movement."
    ∧ (i ≠ 0 → i = n - 1 → create_video_prompt p i n
        = p ++ ". Final scene, resolution. Dramatic conclusion.")
    ∧ (i ≠ 0 → i ≠ n - 1 → create_video_prompt p i n
        = p ++ ". Continuing the story (scene " ++ toString (i + 1) ++ "). Build tension and progression.")
    ∧ (∃ a b, create_video_prompt p 0 3 = a ++ "Opening" ++ b)
    ∧ (∃ a b, create_video_prompt p 2 3 = a ++ "Final" ++ b)
    ∧ (∃ a b, create_video_prompt p 1 3 = a ++ "scene 2" ++ b) := by
  refine ⟨?_, ?_, ?_, ?_, ?_, ?_⟩
  · simp [create_video_prompt]
  · intro h1 h2
    subst h2
    simp [create_video_prompt, h1]
  · intro h1 h2
    simp [create_video_prompt, h1, h2]
  · refine ⟨p ++ ". ", " scene, establishing shot. Smooth camera movement.", ?_⟩
    simp only [create_video_prompt, if_pos rfl, String.append_assoc]
    rfl
  · refine ⟨p ++ ". ", " scene, resolution. Dramatic conclusion.", ?_⟩
    simp only [create_video_prompt, String.append_assoc]
    rfl
  · refine ⟨p ++ ". Continuing the story (", "). Build tension and progression.", ?_⟩
    simp only [create_video_prompt, String.append_assoc]
    rfl

/-- Witness for C7 at a concrete config: 30 second target with 10 second
clips gives ceil(30/10) clips, indices in range order, and the clip loop
in a concrete world keeps the length. -/
theorem claim_C7_witness :
    (_create_new_state sampleConfig "out").clips.length = (⌈(30 : ℚ) / 10⌉).toNat
    ∧ ((_create_new_state sampleConfig "out").clips.map (fun c => c.index))
        = List.range (_create_new_state sampleConfig "out").clips.length
    ∧ ((_generate_clips trivialWorld (_create_new_state sampleConfig "out")).1).clips.length
        = (_create_new_state sampleConfig "out").clips.length :=
  ⟨(claim_C7_clip_count sampleConfig "out" (by simp [sampleConfig]) (by simp [sampleConfig])).1,
   (claim_C7_clip_count sampleConfig "out" (by simp [sampleConfig]) (by simp [sampleConfig])).2.1,
   (claim_C7_clip_count sampleConfig "out" (by simp [sampleConfig]) (by simp [sampleConfig])).2.2 trivialWorld⟩

/-- Witness for C8: with 3 clips the prompt of clip 2 is the final and
resolution framing. -/
theorem claim_C8_witness :
    create_video_prompt "P" 2 3 = "P" ++ ". Final scene, resolution. Dramatic conclusion." :=
  (claim_C8_prompt_rule "P" 3 2).2.1 (by decide) (by decide)

/-- C9: a clip whose prompt is already non-empty before the clip loop
keeps exactly that prompt after the loop, whatever the config (and hence
whatever the current premise) is. -/
theorem claim_C9_prompt_freezing (w : World) (cfg : FilmConfig) (sfp : Option String)
    (clips : List VideoClip) (j : Nat)
    (hj : j < clips.length)
    (hp : (clips.getD j defaultClip).prompt ≠ "") :
    ((runClipLoop w cfg sfp clips.length 0 Option.none clips).getD j defaultStep).clip.prompt
      = (clips.getD j defaultClip).prompt :=
  runClipLoop_prompt_frozen w cfg sfp clips.length clips 0 Option.none j hj hp

/-- Witness for C9: a clip restored with prompt old prompt keeps it even
though the config premise would generate a different prompt. -/
theorem claim_C9_witness :
    ((runClipLoop trivialWorld sampleConfig (Option.some "out/starting_frame.png")
        promptedClips.length 0 Option.none promptedClips).getD 0 defaultStep).clip.prompt
      = "old prompt" :=
  claim_C9_prompt_freezing trivialWorld sampleConfig (Option.some "out/starting_frame.png")
    promptedClips 0 (by decide) (by decide)

/-- C4: in the clip loop, a clip recorded completed whose output file
still exists is skipped unchanged with no generate_clip submission, while
a clip recorded completed whose output file is missing is submitted to
generation again. -/
theorem claim_C4_resume_skip (w : World) (cfg : FilmConfig) (sfp : Option String)
    (clips : List VideoClip) (j : Nat) (p : String)
    (hj : j < clips.length)
    (hst : (clips.getD j defaultClip).status = ClipStatus.completed)
    (hop : (clips.getD j defaultClip).output_path = Option.some p) :
    (w.fileExists p = true →
      ((runClipLoop w cfg sfp clips.length 0 Option.none clips).getD j defaultStep).attempted
          = false
      ∧ ((runClipLoop w cfg sfp clips.length 0 Option.none clips).getD j defaultStep).clip
          = clips.getD j defaultClip)
    ∧ (w.fileExists p = false →
      ((runClipLoop w cfg sfp clips.length 0 Option.none clips).getD j defaultStep).attempted
          = true) :=
  runClipLoop_skip_facts w cfg sfp clips.length clips 0 Option.none j hj hst p hop

/-- Witness for C4: the completed checkpointed clip is skipped unchanged
when its file exists and is attempted again when the file is missing. -/
theorem claim_C4_witness :
    (((runClipLoop allFilesWorld sampleConfig Option.none resumedClips.length 0 Option.none
        resumedClips).getD 0 defaultStep).attempted = false
      ∧ ((runClipLoop allFilesWorld sampleConfig Option.none resumedClips.length 0 Option.none
          resumedClips).getD 0 defaultStep).clip = resumedClips.getD 0 defaultClip)
    ∧ ((runClipLoop trivialWorld sampleConfig Option.none resumedClips.length 0 Option.none
        resumedClips).getD 0 defaultStep).attempted = true :=
  ⟨(claim_C4_resume_skip allFilesWorld sampleConfig Option.none resumedClips 0 "out/clip_0.mp4"
      (by decide) (by decide) (by decide)).1 rfl,
   (claim_C4_resume_skip trivialWorld sampleConfig Option.none resumedClips 0 "out/clip_0.mp4"
      (by decide) (by decide) (by decide)).2 rfl⟩

/-- C2: in a fresh clip run where the provider call for clip k fails, the
loop still visits every clip (one result per clip, all attempted), clip k
ends failed with the error message recorded, and the list handed to the
stitcher is exactly the output paths of the completed clips, indexed in
strictly increasing order, with k not among them. -/
theorem claim_C2_partial_failure (w : World) (cfg : FilmConfig) (sfp : Option String)
    (clips : List VideoClip) (k : Nat) (e : String)
    (hfresh : ∀ c ∈ clips, c.status ≠ ClipStatus.completed)
    (hk : k < clips.length)
    (hkey : selectedKeyMissing cfg = false)
    (hprov : w.providerResult ((clips.getD k defaultClip).index) = Except.error e) :
    (runClipLoop w cfg sfp clips.length 0 Option.none clips).length = clips.length
    ∧ ((runClipLoop w cfg sfp clips.length 0 Option.none clips).all
        (fun r => r.attempted)) = true
    ∧ ((runClipLoop w cfg sfp clips.length 0 Option.none clips).getD k defaultStep).clip.status
        = ClipStatus.failed
    ∧ ((runClipLoop w cfg sfp clips.length 0 Option.none clips).getD k defaultStep).clip.error
        = Option.some e
    ∧ completedClipPaths
        ((runClipLoop w cfg sfp clips.length 0 Option.none clips).map StepResult.clip)
        = (completedIndices
            ((runClipLoop w cfg sfp clips.length 0 Option.none clips).map StepResult.clip)).filterMap
            (fun i =>
              ((((runClipLoop w cfg sfp clips.length 0 Option.none clips).map
                  StepResult.clip)).getD i defaultClip).output_path)
    ∧ List.Pairwise (fun a b => a < b)
        (completedIndices
          ((runClipLoop w cfg sfp clips.length 0 Option.none clips).map StepResult.clip))
    ∧ k ∉ completedIndices
        ((runClipLoop w cfg sfp clips.length 0 Option.none clips).map StepResult.clip) := by
  have hfa := runClipLoop_failed_at w cfg sfp clips.length clips 0 Option.none k hk hfresh hkey
    e hprov
  refine ⟨runClipLoop_length w cfg sfp clips.length clips 0 Option.none, ?_, hfa.1, hfa.2,
    completedClipPaths_eq_indices _, completedIndices_sorted _, ?_⟩
  · exact List.all_eq_true.mpr
      (fun r hr => runClipLoop_all_attempted w cfg sfp clips.length clips 0 Option.none hfresh r hr)
  · apply not_mem_completedIndices
    have hmap :
        ((runClipLoop w cfg sfp clips.length 0 Option.none clips).map StepResult.clip).getD k
            defaultClip
          = ((runClipLoop w cfg sfp clips.length 0 Option.none clips).getD k defaultStep).clip :=
      List.getD_map _ defaultStep StepResult.clip
    rw [hmap]
    exact hfa.1

/-- Witness for C2: the 3-clip run where the provider fails on clip 1
attempts all three clips and stitches exactly clips 0 and 2. -/
theorem claim_C2_witness :
    c2Run.length = sampleClips.length
    ∧ (c2Run.all (fun r => r.attempted)) = true
    ∧ (c2Run.getD 1 defaultStep).clip.status = ClipStatus.failed
    ∧ (c2Run.getD 1 defaultStep).clip.error = Option.some "boom"
    ∧ completedClipPaths (c2Run.map StepResult.clip)
        = (completedIndices (c2Run.map StepResult.clip)).filterMap
            (fun i => (((c2Run.map StepResult.clip)).getD i defaultClip).output_path)
    ∧ List.Pairwise (fun a b => a < b) (completedIndices (c2Run.map StepResult.clip))
    ∧ 1 ∉ completedIndices (c2Run.map StepResult.clip) :=
  claim_C2_partial_failure failWorld1 sampleConfig (Option.some "out/starting_frame.png")
    sampleClips 1 "boom" (by decide) (by decide) (by decide) rfl

/-- C3: after a fresh clip loop (no clip completed yet, no seed image
recorded), clip 0 carries the starting frame reference as its seed image,
and every later clip carries exactly the last frame reference of its
updated predecessor: the last frame when one was produced, and no seed
image at all when the predecessor produced none. -/
theorem claim_C3_chaining (w : World) (cfg : FilmConfig) (sfp : Option String)
    (clips : List VideoClip) (j : Nat)
    (hfresh : ∀ c ∈ clips,
      c.status ≠ ClipStatus.completed ∧ c.start_image_path = Option.none) :
    (0 < clips.length →
      ((runClipLoop w cfg sfp clips.length 0 Option.none clips).getD 0
          defaultStep).clip.start_image_path = sfp)
    ∧ (j + 1 < clips.length →
        (∀ f, ((runClipLoop w cfg sfp clips.length 0 Option.none clips).getD j
              defaultStep).clip.last_frame_path = Option.some f →
            ((runClipLoop w cfg sfp clips.length 0 Option.none clips).getD (j + 1)
              defaultStep).clip.start_image_path = Option.some f)
        ∧ (((runClipLoop w cfg sfp clips.length 0 Option.none clips).getD j
              defaultStep).clip.last_frame_path = Option.none →
            ((runClipLoop w cfg sfp clips.length 0 Option.none clips).getD (j + 1)
              defaultStep).clip.start_image_path = Option.none)) := by
  constructor
  · intro hlen
    cases clips with
    | nil => exact absurd hlen (by simp)
    | cons c cs =>
      exact runClipLoop_seed_head w cfg sfp (c :: cs).length c cs Option.none
        (hfresh c (List.mem_cons_self c cs)).1
  · intro hj
    have hchain := runClipLoop_seed_chain w cfg sfp clips.length clips 0 Option.none j hj hfresh
    constructor
    · intro f hf
      rw [hchain, hf]
    · intro hf
      rw [hchain, hf]

/-- Witness for C3: in the all-success 3-clip run, clip 0 is seeded from
the starting frame and clip 1 from the last frame extracted from clip 0. -/
theorem claim_C3_witness :
    ((runClipLoop trivialWorld sampleConfig (Option.some "out/starting_frame.png")
        sampleClips.length 0 Option.none sampleClips).getD 0
        defaultStep).clip.start_image_path = Option.some "out/starting_frame.png"
    ∧ ((runClipLoop trivialWorld sampleConfig (Option.some "out/starting_frame.png")
        sampleClips.length 0 Option.none sampleClips).getD 1
        defaultStep).clip.start_image_path = Option.some "out/clip_0_last_frame.png" :=
  ⟨(claim_C3_chaining trivialWorld sampleConfig (Option.some "out/starting_frame.png")
      sampleClips 0 (by decide)).1 (by decide),
   ((claim_C3_chaining trivialWorld sampleConfig (Option.some "out/starting_frame.png")
      sampleClips 0 (by decide)).2 (by decide)).1 "out/clip_0_last_frame.png" (by decide)⟩

/-- C1 counterexample: with the gemini provider selected, the gemini key
absent and the OpenAI key present, the orchestrator does not raise a
configuration error before the stages run: the very first event of the
run is the image-generation network call, every clip then fails with the
clip-local error Gemini API key required, and the run aborts only at the
stitch stage with its stage error. -/
theorem claim_C1_counterexample :
    (generate trivialWorld geminiNoKeyState).2.1.head?
        = Option.some PipelineEvent.imageNetworkCall
    ∧ ((generate trivialWorld geminiNoKeyState).1.clips.all
        (fun c => decide (c.status = ClipStatus.failed)
          && decide (c.error = Option.some "Gemini API key required"))) = true
    ∧ (generate trivialWorld geminiNoKeyState).2.2
        = Except.error "No completed clips to stitch" :=
  ⟨rfl, rfl, rfl⟩

/-- C1 (amended): when the credential of the selected provider is absent,
generate_clip raises the key-required ValueError before any provider
network call (netCall false, clip unmutated), and in a fresh clip run the
orchestrator records that same message on every clip as a clip-local
failure while never reaching the provider. -/
theorem claim_C1_credential_clip_local (w : World) (cfg : FilmConfig) (clip : VideoClip)
    (total : Nat) (sfp : Option String) (clips : List VideoClip)
    (hkey : selectedKeyMissing cfg = true)
    (hfresh : ∀ c ∈ clips, c.status ≠ ClipStatus.completed) :
    generate_clip w clip cfg total = ⟨Option.some (requiredKeyError cfg), clip, false⟩
    ∧ ((runClipLoop w cfg sfp total 0 Option.none clips).all
        (fun r => !r.netCall && decide (r.clip.status = ClipStatus.failed)
          && decide (r.clip.error = Option.some (requiredKeyError cfg)))) = true := by
  refine ⟨generate_clip_of_key_missing w clip cfg total hkey, ?_⟩
  apply List.all_eq_true.mpr
  intro r hr
  have h := runClipLoop_key_missing w cfg sfp total clips hkey 0 Option.none hfresh r hr
  simp [h.1, h.2.1, h.2.2]

/-- Witness for C1 (amended) at the concrete gemini-without-key config. -/
theorem claim_C1_witness :
    generate_clip trivialWorld defaultClip geminiNoKeyConfig 3
      = ⟨Option.some (requiredKeyError geminiNoKeyConfig), defaultClip, false⟩ :=
  (claim_C1_credential_clip_local trivialWorld geminiNoKeyConfig defaultClip 3 Option.none
    sampleClips (by decide) (by decide)).1

/-- C6: when the starting frame is already set and the clip stage leaves
no clip completed, the run fails with the stage-fatal stitch error and the
final video reference and completion flag keep their initial unset and
false values. -/
theorem claim_C6_fatal_empty (w : World) (st : FilmState) (sfp : String)
    (hsf : st.starting_frame_path = Option.some sfp)
    (hfv : st.final_video_path = Option.none)
    (hcp : st.completed = false)
    (hnone : ∀ c ∈ ((_generate_clips w st).1).clips, c.status ≠ ClipStatus.completed) :
    (generate w st).1.final_video_path = Option.none
    ∧ (generate w st).1.completed = false
    ∧ (generate w st).2.2 = Except.error "No completed clips to stitch" := by
  have hst : _stitch_clips w ((_generate_clips w st).1)
      = ([], Except.error "No completed clips to stitch") := by
    unfold _stitch_clips
    rw [completedClipPaths_nil_of _ hnone]
    rfl
  unfold generate generate_rest
  rw [hsf]
  dsimp only
  rw [hst]
  exact ⟨hfv, hcp, rfl⟩

/-- Witness for C6: with the gemini key absent every clip fails, so the
concrete run ends in the stitch error with no final video and the flag
still false. -/
theorem claim_C6_witness :
    (generate trivialWorld c6State).1.final_video_path = Option.none
    ∧ (generate trivialWorld c6State).1.completed = false
    ∧ (generate trivialWorld c6State).2.2 = Except.error "No completed clips to stitch" :=
  claim_C6_fatal_empty trivialWorld c6State "out/starting_frame.png" rfl rfl rfl (by decide)

/-- C10: the starting-frame stage always uses the OpenAI image backend:
whenever the OpenAI key is absent, generate_starting_frame raises its
missing-key ValueError with no event, and the whole run fails right there
with the state unchanged, regardless of the selected video provider and
of any gemini key. -/
theorem claim_C10_image_key (w : World) (st : FilmState)
    (hk : missingKey st.config.openai_api_key = true)
    (hsf : st.starting_frame_path = Option.none) :
    generate_starting_frame w st.config
      = ([], Except.error "OpenAI API key required for image generation")
    ∧ generate w st
      = (st, [], Except.error "OpenAI API key required for image generation") := by
  have h1 : generate_starting_frame w st.config
      = ([], Except.error "OpenAI API key required for image generation") := by
    unfold generate_starting_frame
    rw [hk]
    rfl
  refine ⟨h1, ?_⟩
  unfold generate
  rw [hsf, h1]

/-- Witness for C10: with provider gemini and a gemini key present but no
OpenAI key, the run fails at the starting-frame stage. -/
theorem claim_C10_witness :
    generate_starting_frame trivialWorld c10State.config
      = ([], Except.error "OpenAI API key required for image generation")
    ∧ generate trivialWorld c10State
      = (c10State, [], Except.error "OpenAI API key required for image generation") :=
  claim_C10_image_key trivialWorld c10State rfl rfl

end ShortFilm
